import Mathlib

/-!
Shallow embedding of the `fabric_nodes` runtime (the executor registry in
`src/runtime/registry.py` and the three language-executor plugins
`src/runtime/plugins/c_exec.py`, `cpp_exec.py`, `python_exec.py`),
with theorems settling the specification's claims about it.

Python values and effects are made explicit:
* a Python call that may raise is a `PyResult`;
* a registered executor is a `PyExecutor` — a callable carrying its Python
  truthiness (the registry tests `if not fn:`, not `is None`);
* `str.lower()` is `pyLower` (the ASCII case fold, which is all the
  repository's language keys use);
* the dictionary `self._exec` is an insertion-ordered association list with
  Python `dict` update/pop semantics;
* each executor's filesystem and subprocess effects are recorded as event
  traces (`FsEv`, `ProcCall`), with the outcome of each subprocess supplied
  by an environment record, so every exit path of the source is a branch of
  the Lean definition.
-/

namespace FabricNodes

/-- Result of evaluating a Python call: a returned value, or a raised
exception identified by its rendered message. -/
inductive PyResult (α : Type) where
  | ok : α → PyResult α
  | exc : String → PyResult α
  deriving DecidableEq, Repr

/-- `TIMEOUT = 5` (seconds) from `src/runtime/registry.py`, the single global
timeout constant every plugin imports. -/
def TIMEOUT : Nat := 5

/-- ASCII lowering of one character, the embedding of Python `str.lower()` on
the ASCII range: code points 65–90 (`A`–`Z`) shift by 32, everything else is
unchanged. -/
def pyLowerChar (c : Char) : Char :=
  if h : 65 ≤ c.toNat ∧ c.toNat ≤ 90 then
    Char.ofNatAux (c.toNat + 32) (Or.inl (by omega))
  else c

/-- Embedding of Python `str.lower()`: lower every character. -/
def pyLower (s : String) : String := ⟨s.data.map pyLowerChar⟩

theorem pyLowerChar_idem (c : Char) : pyLowerChar (pyLowerChar c) = pyLowerChar c := by
  unfold pyLowerChar
  split
  · next h =>
    have ht : (Char.ofNatAux (c.toNat + 32) (Or.inl (by omega))).toNat = c.toNat + 32 := rfl
    rw [dif_neg (by rw [ht]; omega)]
  · rfl

theorem pyLower_idem (s : String) : pyLower (pyLower s) = pyLower s := by
  unfold pyLower
  refine congrArg String.mk ?_
  simp only [List.map_map]
  induction s.data with
  | nil => rfl
  | cons c cs ih => simp only [List.map_cons, Function.comp_apply, pyLowerChar_idem, ih]

/-- Python's `sub in s` substring test. -/
def strContains (s sub : String) : Prop := sub.data <:+: s.data

instance (s sub : String) : Decidable (strContains s sub) :=
  inferInstanceAs (Decidable (sub.data <:+: s.data))

theorem strContains_of_parts (s pre mid post : String) (h : s = pre ++ mid ++ post) :
    strContains s mid := by
  subst h
  exact ⟨pre.data, post.data, by simp [String.data_append]⟩

/-- A Python object bound as an executor: a callable from source text to an
Outcome `(success, output)` that may also raise, together with its Python
truthiness (an object with a `__bool__` can be callable yet falsy). -/
structure PyExecutor where
  truthy : Bool
  call : String → PyResult (Bool × String)

/-- Python `dict` assignment `d[k] = v`: overwrite in place if `k` is present,
otherwise append (insertion order preserved). -/
def dictSet : List (String × PyExecutor) → String → PyExecutor → List (String × PyExecutor)
  | [], k, v => [(k, v)]
  | (k', v') :: rest, k, v =>
      if k' = k then (k, v) :: rest else (k', v') :: dictSet rest k v

/-- Python `d.get(k)` (defaulting to `None`): the value at the first — in a
`dict`, only — occurrence of `k`. -/
def dictGet : List (String × PyExecutor) → String → Option PyExecutor
  | [], _ => none
  | (k', v') :: rest, k => if k' = k then some v' else dictGet rest k

/-- Python `d.pop(k, None)`: remove the binding of `k` when present. -/
def dictPop : List (String × PyExecutor) → String → List (String × PyExecutor)
  | [], _ => []
  | (k', v') :: rest, k => if k' = k then rest else (k', v') :: dictPop rest k

/-- The state of the filesystem locations `registry.py` touches: whether the
plugin directory and its parent directories exist. -/
structure Fs where
  pluginDirExists : Bool
  parentDirsExist : Bool
  deriving DecidableEq, Repr

/-- `PLUGIN_DIR.mkdir(parents=True, exist_ok=True)`: afterwards the directory
and its parents exist; an already-existing directory is not an error. -/
def mkdirParentsExistOk (_fs : Fs) : Fs :=
  { pluginDirExists := true, parentDirsExist := true }

/-- `ExecutorRegistry` from `src/runtime/registry.py`: the process-wide table
`self._exec` of language key → executor. -/
structure ExecutorRegistry where
  exec : List (String × PyExecutor)

/-- `ExecutorRegistry.__init__`: start with an empty table and create the
plugin directory (`PLUGIN_DIR.mkdir(parents=True, exist_ok=True)`). -/
def ExecutorRegistry.init (fs : Fs) : ExecutorRegistry × Fs :=
  (⟨[]⟩, mkdirParentsExistOk fs)

/-- `register`: `self._exec[lang.lower()] = fn`. -/
def ExecutorRegistry.register (r : ExecutorRegistry) (lang : String) (fn : PyExecutor) :
    ExecutorRegistry :=
  ⟨dictSet r.exec (pyLower lang) fn⟩

/-- `unregister`: `self._exec.pop(lang.lower(), None)`. -/
def ExecutorRegistry.unregister (r : ExecutorRegistry) (lang : String) : ExecutorRegistry :=
  ⟨dictPop r.exec (pyLower lang)⟩

/-- `list_languages`: `sorted(self._exec)` — the keys in sorted order. -/
def ExecutorRegistry.list_languages (r : ExecutorRegistry) : List String :=
  (r.exec.map Prod.fst).mergeSort (fun a b => decide (a ≤ b))

/-- `has`: `lang.lower() in self._exec`. -/
def ExecutorRegistry.has (r : ExecutorRegistry) (lang : String) : Bool :=
  (dictGet r.exec (pyLower lang)).isSome

/-- The message `execute` returns when the lookup comes back `None` or falsy:
`f"No executor for {lang}. Create one from the ➕ menu!"`. -/
def noExecutorMsg (lang : String) : String :=
  "No executor for " ++ lang ++ ". Create one from the ➕ menu!"

/-- `execute`: `fn = self._exec.get(lang.lower())`; `if not fn:` return the
failure Outcome; otherwise `return fn(code)` — the delegate call is not
wrapped in any handler, so whatever `fn` returns or raises is what the
caller of `execute` sees. -/
def ExecutorRegistry.execute (r : ExecutorRegistry) (code lang : String) :
    PyResult (Bool × String) :=
  match dictGet r.exec (pyLower lang) with
  | none => .ok (false, noExecutorMsg lang)
  | some fn => if fn.truthy then fn.call code else .ok (false, noExecutorMsg lang)

/-- The two subprocess stages of a compile-and-run attempt. -/
inductive Stage where
  | compile
  | run
  deriving DecidableEq, Repr

/-- One `subprocess.run(..., timeout=...)` call: which stage it is and the
timeout bound passed at that call site. -/
structure ProcCall where
  stage : Stage
  timeoutBound : Nat
  deriving DecidableEq, Repr

/-- What one subprocess did: raised `subprocess.TimeoutExpired`, or completed
with an exit code and captured stdout/stderr. -/
inductive ProcRes where
  | timeout
  | done (exitCode : Int) (stdout stderr : String)
  deriving DecidableEq, Repr

/-- Filesystem events on an attempt's temporary resources: creation and
removal of the scratch directory (`tempfile.TemporaryDirectory`) or of the
temporary source file (`tempfile.NamedTemporaryFile(delete=False)`). -/
inductive FsEv where
  | mkScratchDir
  | rmScratchDir
  | mkTempFile
  | rmTempFile
  deriving DecidableEq, Repr

/-- Whether the event creates a temporary resource. -/
def FsEv.isCreate : FsEv → Bool
  | .mkScratchDir => true
  | .mkTempFile => true
  | _ => false

/-- Whether the event releases a temporary resource. -/
def FsEv.isRelease : FsEv → Bool
  | .rmScratchDir => true
  | .rmTempFile => true
  | _ => false

/-- Net number of temporary resources still on disk after a trace. -/
def liveScratch (t : List FsEv) : Int :=
  (t.map fun e => if e.isCreate then (1 : Int) else -1).sum

namespace c_exec

/-- `_find_compiler` from `c_exec.py`: the first of `gcc`, `clang` that
`shutil.which` finds on PATH. -/
def find_compiler (which : String → Option String) : Option String :=
  match which "gcc" with
  | some p => some p
  | none => which "clang"

/-- The environment one C execution attempt runs in: the PATH lookup and what
each subprocess stage would do if launched. -/
structure Env where
  which : String → Option String
  compileRes : ProcRes
  runRes : ProcRes

/-- `_compile_and_run` from `c_exec.py`. The body runs inside
`with tempfile.TemporaryDirectory(...)`, which removes the directory on
every exit from the block; each branch below therefore ends its filesystem
trace with `rmScratchDir`. `subprocess.run` is called with `timeout=TIMEOUT`
at both call sites, and the run stage is reached only after the compile
process completed with exit code 0. -/
def compile_and_run (env : Env) (_code : String) :
    (Bool × String) × List FsEv × List ProcCall :=
  match find_compiler env.which with
  | none => ((false, "No C compiler (gcc or clang) found on your system PATH."), [], [])
  | some _ =>
    match env.compileRes with
    | .timeout =>
        ((false, "⏱️ Compilation exceeded " ++ toString TIMEOUT ++ "s timeout."),
         [.mkScratchDir, .rmScratchDir], [⟨.compile, TIMEOUT⟩])
    | .done cExit cOut cErr =>
      if cExit ≠ 0 then
        ((false, "❌ Compilation failed:\n" ++ cOut ++ cErr),
         [.mkScratchDir, .rmScratchDir], [⟨.compile, TIMEOUT⟩])
      else
        match env.runRes with
        | .timeout =>
            ((false, "⏱️ Execution exceeded " ++ toString TIMEOUT ++ "s timeout."),
             [.mkScratchDir, .rmScratchDir], [⟨.compile, TIMEOUT⟩, ⟨.run, TIMEOUT⟩])
        | .done rExit rOut rErr =>
          if rExit ≠ 0 then
            ((false, "💥 Runtime error (exit " ++ toString rExit ++ "):\n" ++ rErr),
             [.mkScratchDir, .rmScratchDir], [⟨.compile, TIMEOUT⟩, ⟨.run, TIMEOUT⟩])
          else
            ((true, if rOut = "" then "(program exited with no output)" else rOut),
             [.mkScratchDir, .rmScratchDir], [⟨.compile, TIMEOUT⟩, ⟨.run, TIMEOUT⟩])

end c_exec

namespace cpp_exec

/-- `_find_compiler` from `cpp_exec.py`: the first of `g++`, `clang++` found
on PATH. -/
def find_compiler (which : String → Option String) : Option String :=
  match which "g++" with
  | some p => some p
  | none => which "clang++"

/-- The environment one C++ execution attempt runs in. -/
structure Env where
  which : String → Option String
  compileRes : ProcRes
  runRes : ProcRes

/-- `_compile_and_run` from `cpp_exec.py`: same staged protocol as the C
executor (different toolchain candidates, flags and not-found message). -/
def compile_and_run (env : Env) (_code : String) :
    (Bool × String) × List FsEv × List ProcCall :=
  match find_compiler env.which with
  | none => ((false, "No C++ compiler (g++ or clang++) found on your PATH."), [], [])
  | some _ =>
    match env.compileRes with
    | .timeout =>
        ((false, "⏱️ Compilation exceeded " ++ toString TIMEOUT ++ "s timeout."),
         [.mkScratchDir, .rmScratchDir], [⟨.compile, TIMEOUT⟩])
    | .done cExit cOut cErr =>
      if cExit ≠ 0 then
        ((false, "❌ Compilation failed:\n" ++ cOut ++ cErr),
         [.mkScratchDir, .rmScratchDir], [⟨.compile, TIMEOUT⟩])
      else
        match env.runRes with
        | .timeout =>
            ((false, "⏱️ Execution exceeded " ++ toString TIMEOUT ++ "s timeout."),
             [.mkScratchDir, .rmScratchDir], [⟨.compile, TIMEOUT⟩, ⟨.run, TIMEOUT⟩])
        | .done rExit rOut rErr =>
          if rExit ≠ 0 then
            ((false, "💥 Runtime error (exit " ++ toString rExit ++ "):\n" ++ rErr),
             [.mkScratchDir, .rmScratchDir], [⟨.compile, TIMEOUT⟩, ⟨.run, TIMEOUT⟩])
          else
            ((true, if rOut = "" then "(program exited with no output)" else rOut),
             [.mkScratchDir, .rmScratchDir], [⟨.compile, TIMEOUT⟩, ⟨.run, TIMEOUT⟩])

end cpp_exec

namespace python_exec

/-- The environment one Python execution attempt runs in: what the single
interpreter subprocess would do. -/
structure Env where
  runRes : ProcRes

/-- `_run_temp` from `python_exec.py`: write the code to a
`NamedTemporaryFile(delete=False)`, run `sys.executable` on it with
`timeout=TIMEOUT`, and in `finally:` remove the file — so the trace ends with
`rmTempFile` on the timeout path too. On completion the Outcome is
`(returncode == 0, stdout if returncode == 0 else stderr)`. -/
def run_temp (env : Env) (_code : String) :
    (Bool × String) × List FsEv × List ProcCall :=
  match env.runRes with
  | .timeout =>
      ((false, "Execution timed out"), [.mkTempFile, .rmTempFile], [⟨.run, TIMEOUT⟩])
  | .done rExit rOut rErr =>
      ((rExit == 0, if rExit == 0 then rOut else rErr),
       [.mkTempFile, .rmTempFile], [⟨.run, TIMEOUT⟩])

end python_exec

/-- A loaded plugin module as `hot_reload` sees it via `sys.modules`: its
name, the mtime recorded at load (`__loaded_mtime__`, 0 when unset), the
file's current on-disk mtime, the language its `register` hook binds, the
executor object the module currently defines, and the executor object its
on-disk source would define if (re)executed. -/
structure PluginModule where
  name : String
  lang : String
  loadedMtime : Nat
  onDiskMtime : Nat
  hasRegisterHook : Bool
  currentExec : PyExecutor
  onDiskExec : PyExecutor

/-- Observable plugin-machinery events: a module reloaded, or a module's
`register` hook invoked against the registry. -/
inductive PluginEv where
  | reloaded (name : String)
  | invokedRegisterHook (name : String)
  deriving DecidableEq, Repr

/-- `load_plugins` from `registry.py`: import each plugin module and, if it
defines `register`, call `mod.register(self)` — for these plugins, one
`reg.register(lang, executor)` call with the module's current executor. -/
def load_plugins (mods : List PluginModule) (reg : ExecutorRegistry) :
    ExecutorRegistry × List PluginEv :=
  match mods with
  | [] => (reg, [])
  | m :: rest =>
    if m.hasRegisterHook then
      let (reg', evs) := load_plugins rest (reg.register m.lang m.currentExec)
      (reg', .invokedRegisterHook m.name :: evs)
    else
      load_plugins rest reg

/-- One module's step of `hot_reload`: when the on-disk mtime is strictly
newer than `__loaded_mtime__`, `importlib.reload(mod)` re-executes the module
top level (rebinding its attributes to the on-disk definitions) and
`__loaded_mtime__` is set to the new mtime. Nothing else happens — in
particular the module's `register` hook is not invoked. -/
def reloadStep (m : PluginModule) : PluginModule × List PluginEv :=
  if m.loadedMtime < m.onDiskMtime then
    ({ m with currentExec := m.onDiskExec, loadedMtime := m.onDiskMtime },
     [.reloaded m.name])
  else (m, [])

/-- `hot_reload` from `registry.py`: walk the loaded plugin modules and
re-import any whose mtime has changed. The registry's table `self._exec` is
never read or written by this method, so it is returned unchanged. -/
def hot_reload (mods : List PluginModule) (reg : ExecutorRegistry) :
    List PluginModule × ExecutorRegistry × List PluginEv :=
  match mods with
  | [] => ([], reg, [])
  | m :: rest =>
    let (m', evs) := reloadStep m
    let (rest', reg', evs') := hot_reload rest reg
    (m' :: rest', reg', evs ++ evs')

theorem strContains_of_prefixPart (s mid post : String) (h : s = mid ++ post) :
    strContains s mid :=
  ⟨[], post.data, by simp [h, String.data_append]⟩

theorem pyLower_append (a b : String) : pyLower (a ++ b) = pyLower a ++ pyLower b := by
  cases a with
  | mk d1 =>
    cases b with
    | mk d2 =>
      show String.mk (List.map pyLowerChar (d1 ++ d2)) = String.mk _ ++ String.mk _
      rw [List.map_append]
      rfl

theorem noExecutorMsg_split (lang : String) :
    noExecutorMsg lang = "No executor" ++ (" for " ++ lang ++ ". Create one from the ➕ menu!") := by
  have h12 : ("No executor" : String) ++ " for " = "No executor for " := rfl
  unfold noExecutorMsg
  conv_lhs => rw [← h12]
  simp only [String.append_assoc]

/-- A Python executor whose call raises: registering it shows what crosses the
Registry boundary when the delegate raises. -/
def raisingExec : PyExecutor :=
  ⟨true, fun _ => .exc "ValueError: boom"⟩

/-- A Python executor that is callable but falsy (an object defining both
`__call__` and a `__bool__` returning `False`). -/
def falsyExec : PyExecutor :=
  ⟨false, fun code => .ok (true, "ran " ++ code)⟩

/-- C1 (counterexample): on an empty registry, `execute("int main(){}", "c")`
returns the failure Outcome `"No executor for c. Create one from the ➕
menu!"`, whose text does not contain the claimed lowercase `"no executor"` —
the code capitalizes the message. -/
theorem claim1_counterexample :
    ExecutorRegistry.execute ⟨[]⟩ "int main(){}" "c"
        = .ok (false, "No executor for c. Create one from the ➕ menu!")
      ∧ ¬ strContains "No executor for c. Create one from the ➕ menu!" "no executor" :=
  ⟨rfl, by decide⟩

/-- C1 (amended): for every language key whose lowered form has no binding in
the table, `execute` returns — never raises — a failure Outcome whose text
contains `"No executor"` (and contains `"no executor"` case-insensitively,
i.e. after lowering). -/
theorem claim1_no_executor_message (r : ExecutorRegistry) (code lang : String)
    (h : dictGet r.exec (pyLower lang) = none) :
    r.execute code lang = .ok (false, noExecutorMsg lang)
      ∧ strContains (noExecutorMsg lang) "No executor"
      ∧ strContains (pyLower (noExecutorMsg lang)) "no executor" := by
  refine ⟨?_, ?_, ?_⟩
  · unfold ExecutorRegistry.execute
    rw [h]
  · exact strContains_of_prefixPart _ _ _ (noExecutorMsg_split lang)
  · refine strContains_of_prefixPart _ _ (pyLower (" for " ++ lang ++ ". Create one from the ➕ menu!")) ?_
    rw [noExecutorMsg_split, pyLower_append]
    have : pyLower "No executor" = "no executor" := by decide
    rw [this]

/-- C1 (witness): the amended statement instantiated on the empty registry
and language `"c"`. -/
theorem claim1_no_executor_message_witness :
    ExecutorRegistry.execute ⟨[]⟩ "int main(){}" "c" = .ok (false, noExecutorMsg "c")
      ∧ strContains (noExecutorMsg "c") "No executor"
      ∧ strContains (pyLower (noExecutorMsg "c")) "no executor" :=
  claim1_no_executor_message ⟨[]⟩ "int main(){}" "c" rfl

/-- C2 (counterexample): with an executor that raises bound to `"x"`,
`execute` propagates the exception to its caller instead of converting it to
a failure Outcome — the delegate call in `registry.py` is not wrapped in any
handler. -/
theorem claim2_counterexample :
    (ExecutorRegistry.register ⟨[]⟩ "x" raisingExec).execute "print(1)" "x"
      = .exc "ValueError: boom" := rfl

/-- C2 (amended): `execute` itself never raises — it raises exactly when the
looked-up binding exists, is truthy, and its call raises; absence of a
binding is reported as a failure Outcome. The conversion of toolchain,
timeout and exit errors to Outcomes happens inside the shipped executors,
not at the Registry boundary. -/
theorem claim2_execute_raises_iff (r : ExecutorRegistry) (code lang e : String) :
    r.execute code lang = .exc e
      ↔ ∃ fn, dictGet r.exec (pyLower lang) = some fn ∧ fn.truthy = true
          ∧ fn.call code = .exc e := by
  unfold ExecutorRegistry.execute
  cases h : dictGet r.exec (pyLower lang) with
  | none => simp
  | some fn =>
    by_cases ht : fn.truthy <;> simp [ht]

/-- C8: a callable-but-falsy executor registered under `"lazy"` makes `has`
and `execute` disagree: `has` answers membership (`in`), while `execute`
tests the looked-up value's truthiness (`if not fn:`), so it returns the
"No executor" failure instead of invoking the bound callable. -/
theorem claim8_falsy_executor_disagreement :
    (ExecutorRegistry.register ⟨[]⟩ "lazy" falsyExec).has "lazy" = true
      ∧ (ExecutorRegistry.register ⟨[]⟩ "lazy" falsyExec).execute "x" "lazy"
          = .ok (false, noExecutorMsg "lazy")
      ∧ falsyExec.call "x" = .ok (true, "ran x") :=
  ⟨rfl, rfl, rfl⟩

/-- C10: constructing an `ExecutorRegistry` creates the plugin directory
(with parents, `exist_ok`) as a side effect of `__init__`, before any
discovery or execution operation can run, and starts with an empty table. -/
theorem claim10_init_creates_plugin_dir (fs : Fs) :
    (ExecutorRegistry.init fs).2.pluginDirExists = true
      ∧ (ExecutorRegistry.init fs).2.parentDirsExist = true
      ∧ (ExecutorRegistry.init fs).1.exec = [] :=
  ⟨rfl, rfl, rfl⟩

/-- The claim's cleanup contract for one attempt's filesystem trace: at most
one temporary resource is created, releases match creations one-for-one
(release exactly once), and nothing temporary is left on disk at the end. -/
def scratchSafe (t : List FsEv) : Prop :=
  t.countP (·.isRelease) = t.countP (·.isCreate)
    ∧ t.countP (·.isCreate) ≤ 1
    ∧ liveScratch t = 0

theorem scratchSafe_nil : scratchSafe [] :=
  ⟨rfl, Nat.zero_le 1, rfl⟩

theorem scratchSafe_dirPair : scratchSafe [FsEv.mkScratchDir, FsEv.rmScratchDir] :=
  ⟨rfl, Nat.le_refl 1, rfl⟩

theorem scratchSafe_filePair : scratchSafe [FsEv.mkTempFile, FsEv.rmTempFile] :=
  ⟨rfl, Nat.le_refl 1, rfl⟩

/-- C3: on every exit path of every executor — success, toolchain missing,
compile failure, compile timeout, runtime failure, run timeout — the
attempt's temporary resources (scratch directory for C/C++, temporary source
file for Python) are released exactly once and are gone when the Outcome is
returned. -/
theorem claim3_scratch_released (envC : c_exec.Env) (envCpp : cpp_exec.Env)
    (envPy : python_exec.Env) (code : String) :
    scratchSafe (c_exec.compile_and_run envC code).2.1
      ∧ scratchSafe (cpp_exec.compile_and_run envCpp code).2.1
      ∧ scratchSafe (python_exec.run_temp envPy code).2.1 := by
  obtain ⟨wC, cresC, rresC⟩ := envC
  obtain ⟨wX, cresX, rresX⟩ := envCpp
  obtain ⟨rresPy⟩ := envPy
  refine ⟨?_, ?_, ?_⟩
  · cases hf : c_exec.find_compiler wC with
    | none =>
      simp only [c_exec.compile_and_run, hf]
      exact scratchSafe_nil
    | some p =>
      cases cresC with
      | timeout =>
        simp only [c_exec.compile_and_run, hf]
        exact scratchSafe_dirPair
      | done cExit cOut cErr =>
        rcases eq_or_ne cExit 0 with h0 | h0
        · subst h0
          cases rresC with
          | timeout =>
            simp only [c_exec.compile_and_run, hf, ne_eq, not_true_eq_false, if_false,
              reduceIte]
            exact scratchSafe_dirPair
          | done rExit rOut rErr =>
            rcases eq_or_ne rExit 0 with hr | hr
            · subst hr
              simp only [c_exec.compile_and_run, hf, ne_eq, not_true_eq_false, reduceIte]
              exact scratchSafe_dirPair
            · simp only [c_exec.compile_and_run, hf, ne_eq, hr, not_false_eq_true, if_true,
                if_neg, reduceIte]
              exact scratchSafe_dirPair
        · simp only [c_exec.compile_and_run, hf, ne_eq, h0, not_false_eq_true, if_true,
            reduceIte]
          exact scratchSafe_dirPair
  · cases hf : cpp_exec.find_compiler wX with
    | none =>
      simp only [cpp_exec.compile_and_run, hf]
      exact scratchSafe_nil
    | some p =>
      cases cresX with
      | timeout =>
        simp only [cpp_exec.compile_and_run, hf]
        exact scratchSafe_dirPair
      | done cExit cOut cErr =>
        rcases eq_or_ne cExit 0 with h0 | h0
        · subst h0
          cases rresX with
          | timeout =>
            simp only [cpp_exec.compile_and_run, hf, ne_eq, not_true_eq_false, if_false,
              reduceIte]
            exact scratchSafe_dirPair
          | done rExit rOut rErr =>
            rcases eq_or_ne rExit 0 with hr | hr
            · subst hr
              simp only [cpp_exec.compile_and_run, hf, ne_eq, not_true_eq_false, reduceIte]
              exact scratchSafe_dirPair
            · simp only [cpp_exec.compile_and_run, hf, ne_eq, hr, not_false_eq_true, if_true,
                if_neg, reduceIte]
              exact scratchSafe_dirPair
        · simp only [cpp_exec.compile_and_run, hf, ne_eq, h0, not_false_eq_true, if_true,
            reduceIte]
          exact scratchSafe_dirPair
  · cases rresPy with
    | timeout =>
      simp only [python_exec.run_temp]
      exact scratchSafe_filePair
    | done rExit rOut rErr =>
      simp only [python_exec.run_temp]
      exact scratchSafe_filePair

/-- The staged-subprocess contract of a compile-and-run attempt: every
subprocess call carries the full global timeout as its bound, and the traces
that occur are: no process (toolchain missing), compile only, or compile
followed by run — the latter only when the compile process completed with
exit code 0. -/
def stagedProcSpec (procs : List ProcCall) (compileRes : ProcRes) : Prop :=
  (∀ p ∈ procs, p.timeoutBound = TIMEOUT)
    ∧ (procs = []
        ∨ procs = [⟨.compile, TIMEOUT⟩]
        ∨ (procs = [⟨.compile, TIMEOUT⟩, ⟨.run, TIMEOUT⟩]
            ∧ ∃ cOut cErr, compileRes = .done 0 cOut cErr))

/-- C4: in both compiled executors, the compile stage and the run stage each
get the full `TIMEOUT` constant as their own budget (the run stage's bound is
a fresh full instance passed at its own `subprocess.run` call, not a
remainder), and the run stage happens only after the compile stage exited
successfully. -/
theorem stagedProcSpec_nil (res : ProcRes) : stagedProcSpec [] res :=
  ⟨by simp, Or.inl rfl⟩

theorem stagedProcSpec_compileOnly (res : ProcRes) :
    stagedProcSpec [⟨.compile, TIMEOUT⟩] res :=
  ⟨by simp, Or.inr (Or.inl rfl)⟩

theorem stagedProcSpec_both (cOut cErr : String) :
    stagedProcSpec [⟨.compile, TIMEOUT⟩, ⟨.run, TIMEOUT⟩] (.done 0 cOut cErr) :=
  ⟨by simp, Or.inr (Or.inr ⟨rfl, cOut, cErr, rfl⟩)⟩

theorem claim4_stage_budgets_independent (envC : c_exec.Env) (envCpp : cpp_exec.Env)
    (code : String) :
    stagedProcSpec (c_exec.compile_and_run envC code).2.2 envC.compileRes
      ∧ stagedProcSpec (cpp_exec.compile_and_run envCpp code).2.2 envCpp.compileRes := by
  obtain ⟨wC, cresC, rresC⟩ := envC
  obtain ⟨wX, cresX, rresX⟩ := envCpp
  constructor
  · cases hf : c_exec.find_compiler wC with
    | none =>
      simp only [c_exec.compile_and_run, hf]
      exact stagedProcSpec_nil _
    | some p =>
      cases cresC with
      | timeout =>
        simp only [c_exec.compile_and_run, hf]
        exact stagedProcSpec_compileOnly _
      | done cExit cOut cErr =>
        rcases eq_or_ne cExit 0 with h0 | h0
        · subst h0
          cases rresC with
          | timeout =>
            simp only [c_exec.compile_and_run, hf, ne_eq, not_true_eq_false, reduceIte]
            exact stagedProcSpec_both cOut cErr
          | done rExit rOut rErr =>
            rcases eq_or_ne rExit 0 with hr | hr
            · subst hr
              simp only [c_exec.compile_and_run, hf, ne_eq, not_true_eq_false, reduceIte]
              exact stagedProcSpec_both cOut cErr
            · simp only [c_exec.compile_and_run, hf, ne_eq, hr, not_false_eq_true, if_true,
                not_true_eq_false, reduceIte]
              exact stagedProcSpec_both cOut cErr
        · simp only [c_exec.compile_and_run, hf, ne_eq, h0, not_false_eq_true, if_true,
            reduceIte]
          exact stagedProcSpec_compileOnly _
  · cases hf : cpp_exec.find_compiler wX with
    | none =>
      simp only [cpp_exec.compile_and_run, hf]
      exact stagedProcSpec_nil _
    | some p =>
      cases cresX with
      | timeout =>
        simp only [cpp_exec.compile_and_run, hf]
        exact stagedProcSpec_compileOnly _
      | done cExit cOut cErr =>
        rcases eq_or_ne cExit 0 with h0 | h0
        · subst h0
          cases rresX with
          | timeout =>
            simp only [cpp_exec.compile_and_run, hf, ne_eq, not_true_eq_false, reduceIte]
            exact stagedProcSpec_both cOut cErr
          | done rExit rOut rErr =>
            rcases eq_or_ne rExit 0 with hr | hr
            · subst hr
              simp only [cpp_exec.compile_and_run, hf, ne_eq, not_true_eq_false, reduceIte]
              exact stagedProcSpec_both cOut cErr
            · simp only [cpp_exec.compile_and_run, hf, ne_eq, hr, not_false_eq_true, if_true,
                not_true_eq_false, reduceIte]
              exact stagedProcSpec_both cOut cErr
        · simp only [cpp_exec.compile_and_run, hf, ne_eq, h0, not_false_eq_true, if_true,
            reduceIte]
          exact stagedProcSpec_compileOnly _

/-- C7 (counterexample): the Python executor's failure Outcome on a nonzero
interpreter exit is the captured stderr alone — here exit code 2 with stderr
`"boom"` yields the text `"boom"`, which does not contain the exit code. -/
theorem claim7_counterexample :
    (python_exec.run_temp ⟨.done 2 "" "boom"⟩ "import sys; sys.exit(2)").1 = (false, "boom")
      ∧ ¬ strContains "boom" "2" :=
  ⟨rfl, by decide⟩

/-- C7 (amended): on a nonzero exit of the run stage, the C and C++ executors
return a failure Outcome whose text contains both the exit code and the
captured stderr; the Python executor returns a failure Outcome whose text is
the captured stderr alone, without the exit code. -/
theorem claim7_exit_code_and_stderr (wC wX : String → Option String) (p q : String)
    (hwC : c_exec.find_compiler wC = some p) (hwX : cpp_exec.find_compiler wX = some q)
    (cOut cErr rOut rErr code : String) (rExit : Int) (hr : rExit ≠ 0) :
    ((c_exec.compile_and_run ⟨wC, .done 0 cOut cErr, .done rExit rOut rErr⟩ code).1.1 = false
      ∧ strContains (c_exec.compile_and_run ⟨wC, .done 0 cOut cErr, .done rExit rOut rErr⟩
          code).1.2 (toString rExit)
      ∧ strContains (c_exec.compile_and_run ⟨wC, .done 0 cOut cErr, .done rExit rOut rErr⟩
          code).1.2 rErr)
    ∧ ((cpp_exec.compile_and_run ⟨wX, .done 0 cOut cErr, .done rExit rOut rErr⟩ code).1.1 = false
      ∧ strContains (cpp_exec.compile_and_run ⟨wX, .done 0 cOut cErr, .done rExit rOut rErr⟩
          code).1.2 (toString rExit)
      ∧ strContains (cpp_exec.compile_and_run ⟨wX, .done 0 cOut cErr, .done rExit rOut rErr⟩
          code).1.2 rErr)
    ∧ (python_exec.run_temp ⟨.done rExit rOut rErr⟩ code).1 = (false, rErr) := by
  have hmsg : ∀ s : String, "💥 Runtime error (exit " ++ toString rExit ++ "):\n" ++ s
      = "💥 Runtime error (exit " ++ toString rExit ++ ("):\n" ++ s ++ "") := by
    intro s
    simp [String.append_assoc]
  refine ⟨⟨?_, ?_, ?_⟩, ⟨?_, ?_, ?_⟩, ?_⟩
  · simp [c_exec.compile_and_run, hwC, hr]
  · simp only [c_exec.compile_and_run, hwC, ne_eq, not_true_eq_false, reduceIte, hr,
      not_false_eq_true, if_true]
    exact strContains_of_parts _ "💥 Runtime error (exit " (toString rExit)
      ("):\n" ++ rErr) (by simp [String.append_assoc])
  · simp only [c_exec.compile_and_run, hwC, ne_eq, not_true_eq_false, reduceIte, hr,
      not_false_eq_true, if_true]
    exact strContains_of_parts _ ("💥 Runtime error (exit " ++ toString rExit ++ "):\n")
      rErr "" (by rw [hmsg rErr]; simp [String.append_assoc])
  · simp [cpp_exec.compile_and_run, hwX, hr]
  · simp only [cpp_exec.compile_and_run, hwX, ne_eq, not_true_eq_false, reduceIte, hr,
      not_false_eq_true, if_true]
    exact strContains_of_parts _ "💥 Runtime error (exit " (toString rExit)
      ("):\n" ++ rErr) (by simp [String.append_assoc])
  · simp only [cpp_exec.compile_and_run, hwX, ne_eq, not_true_eq_false, reduceIte, hr,
      not_false_eq_true, if_true]
    exact strContains_of_parts _ ("💥 Runtime error (exit " ++ toString rExit ++ "):\n")
      rErr "" (by rw [hmsg rErr]; simp [String.append_assoc])
  · simp [python_exec.run_temp, hr]

/-- C7 (witness): the amended statement instantiated on a PATH carrying both
toolchains, compile success, and a run that exits 2 with stderr `"boom"`. -/
theorem claim7_exit_code_and_stderr_witness :
    ((c_exec.compile_and_run ⟨fun _ => some "/usr/bin/cc", .done 0 "" "", .done 2 "" "boom"⟩
        "int main(){return 2;}").1.1 = false
      ∧ strContains (c_exec.compile_and_run ⟨fun _ => some "/usr/bin/cc", .done 0 "" "",
          .done 2 "" "boom"⟩ "int main(){return 2;}").1.2 (toString (2 : Int))
      ∧ strContains (c_exec.compile_and_run ⟨fun _ => some "/usr/bin/cc", .done 0 "" "",
          .done 2 "" "boom"⟩ "int main(){return 2;}").1.2 "boom")
    ∧ ((cpp_exec.compile_and_run ⟨fun _ => some "/usr/bin/cc", .done 0 "" "",
          .done 2 "" "boom"⟩ "int main(){return 2;}").1.1 = false
      ∧ strContains (cpp_exec.compile_and_run ⟨fun _ => some "/usr/bin/cc", .done 0 "" "",
          .done 2 "" "boom"⟩ "int main(){return 2;}").1.2 (toString (2 : Int))
      ∧ strContains (cpp_exec.compile_and_run ⟨fun _ => some "/usr/bin/cc", .done 0 "" "",
          .done 2 "" "boom"⟩ "int main(){return 2;}").1.2 "boom")
    ∧ (python_exec.run_temp ⟨.done 2 "" "boom"⟩ "int main(){return 2;}").1 = (false, "boom") :=
  claim7_exit_code_and_stderr (fun _ => some "/usr/bin/cc") (fun _ => some "/usr/bin/cc")
    "/usr/bin/cc" "/usr/bin/cc" rfl rfl "" "" "" "boom" "int main(){return 2;}" 2 (by decide)

/-- The invariant of the registry table: every stored key is a fixed point of
lowering (i.e. already lowercase). -/
def LowerKeyed (r : ExecutorRegistry) : Prop :=
  ∀ p ∈ r.exec, pyLower p.1 = p.1

theorem lowerKeyed_dictSet (d : List (String × PyExecutor)) (k : String) (v : PyExecutor)
    (hd : ∀ p ∈ d, pyLower p.1 = p.1) (hk : pyLower k = k) :
    ∀ p ∈ dictSet d k v, pyLower p.1 = p.1 := by
  induction d with
  | nil =>
    intro p hp
    simp only [dictSet, List.mem_singleton] at hp
    subst hp
    exact hk
  | cons a rest ih =>
    obtain ⟨k', v'⟩ := a
    intro p hp
    simp only [dictSet] at hp
    split at hp
    · rcases List.mem_cons.mp hp with h | h
      · subst h
        exact hk
      · exact hd p (List.mem_cons_of_mem (k', v') h)
    · rcases List.mem_cons.mp hp with h | h
      · subst h
        exact hd (k', v') (List.mem_cons_self (k', v') rest)
      · exact ih (fun q hq => hd q (List.mem_cons_of_mem (k', v') hq)) p h

theorem dictPop_subset (d : List (String × PyExecutor)) (k : String) :
    ∀ p ∈ dictPop d k, p ∈ d := by
  induction d with
  | nil => intro p hp; simp [dictPop] at hp
  | cons a rest ih =>
    obtain ⟨k', v'⟩ := a
    intro p hp
    simp only [dictPop] at hp
    split at hp
    · exact List.mem_cons_of_mem (k', v') hp
    · rcases List.mem_cons.mp hp with h | h
      · subst h
        exact List.mem_cons_self (k', v') rest
      · exact List.mem_cons_of_mem (k', v') (ih p h)

/-- C9: all keys the table ever holds are lowercase — `register` lowers the
key before inserting (and lowering is idempotent), `unregister` only
removes, a fresh registry is empty — and therefore every name
`list_languages` returns is lowercase, whatever casing registration used. -/
theorem claim9_keys_lowercase (r : ExecutorRegistry) (lang : String) (fn : PyExecutor)
    (fs : Fs) (h : LowerKeyed r) :
    LowerKeyed (r.register lang fn)
      ∧ LowerKeyed (r.unregister lang)
      ∧ LowerKeyed (ExecutorRegistry.init fs).1
      ∧ ∀ k ∈ r.list_languages, pyLower k = k := by
  refine ⟨?_, ?_, ?_, ?_⟩
  · exact lowerKeyed_dictSet r.exec (pyLower lang) fn h (pyLower_idem lang)
  · intro p hp
    exact h p (dictPop_subset r.exec (pyLower lang) p hp)
  · intro p hp
    simp [ExecutorRegistry.init] at hp
  · intro k hk
    have hperm := List.mergeSort_perm (r.exec.map Prod.fst) (fun a b => decide (a ≤ b))
    have hk' : k ∈ r.exec.map Prod.fst := hperm.mem_iff.mp hk
    rcases List.mem_map.mp hk' with ⟨p, hp, hpk⟩
    subst hpk
    exact h p hp

/-- C9 (witness): the invariant statement instantiated on a registry already
holding the lowercase key `"python"`, registering under the mixed-case name
`"PyThOn"`. -/
theorem claim9_keys_lowercase_witness :
    LowerKeyed (ExecutorRegistry.register ⟨[("python", falsyExec)]⟩ "PyThOn" falsyExec)
      ∧ LowerKeyed (ExecutorRegistry.unregister ⟨[("python", falsyExec)]⟩ "PyThOn")
      ∧ LowerKeyed (ExecutorRegistry.init ⟨false, false⟩).1
      ∧ ∀ k ∈ ExecutorRegistry.list_languages ⟨[("python", falsyExec)]⟩, pyLower k = k :=
  claim9_keys_lowercase ⟨[("python", falsyExec)]⟩ "PyThOn" falsyExec ⟨false, false⟩
    (by
      intro p hp
      rcases List.mem_singleton.mp hp with h
      rw [h]
      decide)

/-- Modelled from the spec: the throttled rescan trigger `tick()` is not part
of the files under `src/` — the registry there exposes only the unthrottled
scans `load_plugins`/`hot_reload` that a polling host's `tick` would invoke
(`registry.py` imports `time` without using it). Per the spec, the registry
state carries the last-scan timestamp and a configured minimum interval
(documented default a quarter second; time here in milliseconds, so 250),
and `tick` performs an actual scan only when the elapsed time since the last
scan exceeds that interval. `scanCount` counts the actual scans performed. -/
structure TickState where
  lastScanMs : Nat
  scanCount : Nat
  deriving DecidableEq, Repr

/-- Modelled from the spec: the throttle interval, a quarter second. -/
def TICK_INTERVAL_MS : Nat := 250

/-- Modelled from the spec: `tick()` — scan (and record the scan time) only
when more than the interval has elapsed since the last scan. -/
def tick (nowMs : Nat) (st : TickState) : TickState :=
  if st.lastScanMs + TICK_INTERVAL_MS < nowMs then
    { lastScanMs := nowMs, scanCount := st.scanCount + 1 }
  else st

/-- C5: two `tick` calls that fall within one throttle window (the second at
most the interval after the first) perform at most one actual scan between
them. -/
theorem claim5_tick_throttled (t1 t2 : Nat) (st : TickState)
    (h1 : t1 ≤ t2) (h2 : t2 ≤ t1 + TICK_INTERVAL_MS) :
    (tick t2 (tick t1 st)).scanCount ≤ st.scanCount + 1 := by
  unfold TICK_INTERVAL_MS at h2
  unfold tick TICK_INTERVAL_MS
  by_cases hA : st.lastScanMs + 250 < t1
  · rw [if_pos hA]
    rw [if_neg (show ¬((⟨t1, st.scanCount + 1⟩ : TickState).lastScanMs + 250 < t2) by
      simp only
      omega)]
  · rw [if_neg hA]
    by_cases hB : st.lastScanMs + 250 < t2
    · rw [if_pos hB]
    · rw [if_neg hB]
      exact Nat.le_succ _

/-- C5 (witness): the theorem at `t1 = 1000`, `t2 = 1100` (within one 250 ms
window) from a state that last scanned at time 0. -/
theorem claim5_tick_throttled_witness :
    (tick 1100 (tick 1000 ⟨0, 0⟩)).scanCount ≤ 0 + 1 :=
  claim5_tick_throttled 1000 1100 ⟨0, 0⟩ (by decide) (by decide)

/-- The executor the `c_exec` plugin module currently defines (what its
`register` hook bound at load time). -/
def oldCExec : PyExecutor :=
  ⟨true, fun _ => .ok (true, "old")⟩

/-- The executor the edited on-disk source of the `c_exec` plugin would
define after a reload. -/
def newCExec : PyExecutor :=
  ⟨true, fun _ => .ok (true, "new")⟩

/-- The `c_exec` plugin module after its file was edited: loaded at mtime 1,
on-disk mtime now 2, with its on-disk source defining a new executor. -/
def cPluginModule : PluginModule :=
  ⟨"c_exec", "c", 1, 2, true, oldCExec, newCExec⟩

/-- C6 (evaluated at the failing input): with the `c_exec` module's on-disk
mtime (2) past the recorded load mtime (1), `hot_reload` reloads the module
(its attributes now hold the new executor and `__loaded_mtime__` is 2) but
never invokes its `register` hook and never touches the registry table: the
binding for `"c"` still runs the pre-reload executor, while a fresh load
would bind the new one. This confirms the reload half of the claim and
refutes the re-registration half. -/
theorem claim6_hot_reload_skips_register_hook :
    (hot_reload [cPluginModule] (ExecutorRegistry.register ⟨[]⟩ "c" oldCExec)).1
        = [{ cPluginModule with currentExec := newCExec, loadedMtime := 2 }]
      ∧ (hot_reload [cPluginModule] (ExecutorRegistry.register ⟨[]⟩ "c" oldCExec)).2.1
        = ExecutorRegistry.register ⟨[]⟩ "c" oldCExec
      ∧ (hot_reload [cPluginModule] (ExecutorRegistry.register ⟨[]⟩ "c" oldCExec)).2.2
        = [.reloaded "c_exec"]
      ∧ PluginEv.invokedRegisterHook "c_exec"
          ∉ (hot_reload [cPluginModule] (ExecutorRegistry.register ⟨[]⟩ "c" oldCExec)).2.2
      ∧ ((hot_reload [cPluginModule] (ExecutorRegistry.register ⟨[]⟩ "c" oldCExec)).2.1).execute
          "x" "c" = .ok (true, "old")
      ∧ newCExec.call "x" = .ok (true, "new")
      ∧ ((load_plugins (hot_reload [cPluginModule]
            (ExecutorRegistry.register ⟨[]⟩ "c" oldCExec)).1
            (hot_reload [cPluginModule] (ExecutorRegistry.register ⟨[]⟩ "c" oldCExec)).2.1).1).execute
          "x" "c" = .ok (true, "new") :=
  ⟨rfl, rfl, rfl, by decide, rfl, rfl, rfl⟩

end FabricNodes
